import Mathlib

/-!
Shallow embedding of the sync/cache engine of the plex-news repository
(src/src/database.py and src/src/tautulli_api.py), together with theorems
settling the frozen claims about it.

The local store is SQLite; we model the three tables plus the singleton
sync_status row as lists/records, SQL NOT NULL violations as errors of an
`Except`, and the `INSERT OR REPLACE` semantics as delete-matching-then-append.
The `Database` class keeps one long-lived write connection (`_connection`);
rows written through it become visible to other connections only at commit.
We model this with a `DbState` holding the last committed database plus an
optional open-transaction working copy.
-/

namespace PlexNews

/-- Row of the `media_items` table (database.py:73-91).  `title` and
`media_type` are declared NOT NULL; `rating_key` is a TEXT PRIMARY KEY,
which in SQLite may still be NULL, hence `Option String`. -/
structure MediaRow where
  rating_key : Option String
  title : String
  year : Option Int
  media_type : String
  thumb : Option String
  art : Option String
  banner : Option String
  summary : Option String
  duration : Option Int
  file_size : Option Int
  added_at : Option Int
  updated_at : Option Int
deriving Repr, DecidableEq

/-- Row of the `play_history` table (database.py:93-102); `rating_key`,
`user_id` and `watched_at` are NOT NULL, `id` is the autoincrement key. -/
structure PlayRow where
  id : Nat
  rating_key : String
  user_id : String
  watched_at : Int
  duration : Option Int
deriving Repr, DecidableEq

/-- Row of the `users` table (database.py:104-111). -/
structure UserRow where
  user_id : String
  username : String
  friendly_name : Option String
  last_seen : Option Int
deriving Repr, DecidableEq

/-- The singleton `sync_status` row (database.py:113-121), initialised to
(0, 0, 0) by init_db. -/
structure SyncStatus where
  last_history_sync : Int
  last_library_sync : Int
  total_items_synced : Int
deriving Repr, DecidableEq

/-- The whole database file.  `next_play_id` models the AUTOINCREMENT
counter of play_history. -/
structure Db where
  media_items : List MediaRow
  play_history : List PlayRow
  users : List UserRow
  sync_status : SyncStatus
  next_play_id : Nat
deriving Repr, DecidableEq

/-- Connection state of a `Database` object: the last committed database
plus the working copy seen by the long-lived write connection
(`self._connection`), when one is open.  Writes go to `conn`; readers that
open their own connection see `committed`. -/
structure DbState where
  committed : Db
  conn : Option Db
deriving Repr, DecidableEq

/-- A Python dict as passed to store_media_item / store_play_history: every
field optional, absent keys modelled as `none` (`dict.get` returns the
default for them). -/
structure Item where
  rating_key : Option String := none
  title : Option String := none
  year : Option Int := none
  media_type : Option String := none
  thumb : Option String := none
  art : Option String := none
  banner : Option String := none
  summary : Option String := none
  duration : Option Int := none
  file_size : Option Int := none
  added_at : Option Int := none
  grandparent_rating_key : Option String := none
  parent_rating_key : Option String := none
  user_id : Option String := none
  user : Option String := none
  friendly_name : Option String := none
  date : Option Int := none
deriving Repr, DecidableEq

/-- SQL-level failures surfacing as sqlite3 exceptions. -/
inductive SqlErr where
  | notNullViolation
deriving Repr, DecidableEq

/-- begin_transaction (database.py:46-51): closes any existing connection
(discarding its uncommitted writes) and opens a fresh one on the committed
database. -/
def begin_transaction (st : DbState) : DbState :=
  { st with conn := some st.committed }

/-- commit_transaction (database.py:53-58): publishes the working copy and
closes the connection. -/
def commit_transaction (st : DbState) : DbState :=
  match st.conn with
  | some db => { committed := db, conn := none }
  | none => st

/-- rollback_transaction (database.py:60-65): discards the working copy. -/
def rollback_transaction (st : DbState) : DbState :=
  { st with conn := none }

/-- The `if self._connection is None: self.begin_transaction()` guard at the
top of the write methods (database.py:192-193, 226-227, 172-173). -/
def ensureTransaction (st : DbState) : DbState :=
  match st.conn with
  | some _ => st
  | none => begin_transaction st

/-- The database the open write connection currently sees. -/
def effDb (st : DbState) : Db :=
  st.conn.getD st.committed

/-- get_last_sync_time (database.py:158-167): a read on a fresh connection,
so it sees the committed sync_status row. -/
def get_last_sync_time (st : DbState) : Int × Int :=
  (st.committed.sync_status.last_history_sync,
   st.committed.sync_status.last_library_sync)

/-- update_sync_time with sync_type='history' (database.py:169-188), the
only way it is invoked inside the modelled sync paths: sets
last_history_sync to the current time and bumps total_items_synced, all on
the open write connection. -/
def update_sync_time_history (now : Int) (st : DbState) : DbState :=
  let st := ensureTransaction st
  match st.conn with
  | some db =>
      { st with conn := some { db with sync_status :=
          { db.sync_status with
              last_history_sync := now,
              total_items_synced := db.sync_status.total_items_synced + 1 } } }
  | none => st

/-- The `INSERT OR REPLACE INTO media_items` statement of store_media_item
(database.py:199-218).  NOT NULL on title/media_type makes the insert fail
when either binding is NULL.  REPLACE deletes the rows conflicting on the
primary key and inserts the new one; a NULL rating_key conflicts with
nothing (SQL NULLs compare equal to nothing), so it is appended as a new
row. -/
def sqlInsertOrReplaceMedia (now : Int) (it : Item) (db : Db) : Except SqlErr Db :=
  match it.title, it.media_type with
  | some t, some mt =>
      let row : MediaRow :=
        { rating_key := it.rating_key, title := t, year := it.year,
          media_type := mt, thumb := it.thumb, art := it.art,
          banner := it.banner, summary := it.summary,
          duration := it.duration, file_size := it.file_size,
          added_at := it.added_at, updated_at := some now }
      let kept :=
        match it.rating_key with
        | some rk => db.media_items.filter (fun r => !(r.rating_key == some rk))
        | none => db.media_items
      Except.ok { db with media_items := kept ++ [row] }
  | _, _ => Except.error SqlErr.notNullViolation

/-- store_media_item (database.py:190-222).  Note the except clause
(lines 219-222): a failing insert is caught and only printed — the open
transaction is left exactly as it was, nothing is rolled back and no error
reaches the caller. -/
def store_media_item (now : Int) (it : Item) (st : DbState) : DbState :=
  let st := ensureTransaction st
  match st.conn with
  | none => st
  | some db =>
      match sqlInsertOrReplaceMedia now it db with
      | Except.ok db2 => { st with conn := some db2 }
      | Except.error _ => st

/-- The `INSERT OR REPLACE INTO users` step of store_play_history
(database.py:232-241), with the dict defaults of the source: user_id
defaults to 'unknown', username to 'unknown', friendly_name to '',
last_seen to the record's date (or now when the date key is absent). -/
def userUpsert (now : Int) (it : Item) (db : Db) : Db :=
  let uid := it.user_id.getD "unknown"
  let row : UserRow :=
    { user_id := uid, username := it.user.getD "unknown",
      friendly_name := some (it.friendly_name.getD ""),
      last_seen := some (it.date.getD now) }
  { db with users := db.users.filter (fun u => !(u.user_id == uid)) ++ [row] }

/-- The dedup SELECT of store_play_history (database.py:244-251): a row
matches when its (rating_key, user_id, watched_at) equal the bound
parameters.  A NULL rating_key parameter matches no row (SQL `=` with NULL
is never true). -/
def playMatches (rk : Option String) (uid : String) (d : Int) (r : PlayRow) : Bool :=
  match rk with
  | none => false
  | some k => r.rating_key == k && r.user_id == uid && r.watched_at == d

/-- store_play_history (database.py:224-271): upsert the user, dedup-check
on (rating_key, user_id, watched_at), insert only when absent, and advance
the history watermark on insert.  Any exception inside the try block is
printed, the whole transaction is rolled back, and the exception re-raised
(lines 268-271); in the model the only failing statement is the INSERT with
a NULL rating_key (NOT NULL violation). -/
def store_play_history (now : Int) (it : Item) (st : DbState) :
    DbState × Option SqlErr :=
  let st := ensureTransaction st
  match st.conn with
  | none => (st, none)
  | some db =>
      let uid := it.user_id.getD "unknown"
      let d := it.date.getD now
      let db := userUpsert now it db
      if db.play_history.any (playMatches it.rating_key uid d) then
        ({ st with conn := some db }, none)
      else
        match it.rating_key with
        | none =>
            ({ committed := st.committed, conn := none },
             some SqlErr.notNullViolation)
        | some rk =>
            let row : PlayRow :=
              { id := db.next_play_id, rating_key := rk, user_id := uid,
                watched_at := d, duration := some (it.duration.getD 0) }
            let db := { db with
              play_history := db.play_history ++ [row],
              next_play_id := db.next_play_id + 1 }
            (update_sync_time_history now { st with conn := some db }, none)

/-- The freshly initialised database produced by init_db on an empty file
(database.py:67-143). -/
def emptyDb : Db :=
  { media_items := [], play_history := [], users := [],
    sync_status := { last_history_sync := 0, last_library_sync := 0,
                     total_items_synced := 0 },
    next_play_id := 1 }

/-- A Database object right after construction: committed empty schema, no
open write connection. -/
def emptySt : DbState := { committed := emptyDb, conn := none }

/-- Number of play_history rows carrying a given dedup key. -/
def countPlay (db : Db) (rk uid : String) (d : Int) : Nat :=
  db.play_history.countP (fun r => playMatches (some rk) uid d r)

/-- Number of users rows with a given user_id. -/
def countUsers (db : Db) (uid : String) : Nat :=
  db.users.countP (fun u => u.user_id == uid)

/-- The media_items rows carrying a given rating_key. -/
def mediaRows (db : Db) (rk : String) : List MediaRow :=
  db.media_items.filter (fun r => r.rating_key == some rk)

/-- added_at of the first media_items row with the given rating_key,
as seen by the open write connection. -/
def mediaAddedAt (st : DbState) (rk : String) : Option (Option Int) :=
  ((effDb st).media_items.find? (fun r => r.rating_key == some rk)).map
    (fun r => r.added_at)

/-! ## execute_with_retry (database.py:30-44)

The retry wrapper is modelled on its own, abstracting the wrapped
`cursor.execute` as a function from the attempt index to its outcome.  The
loop runs `for attempt in range(max_retries)` with `max_retries = 3` and
`retry_delay = 1`; on an OperationalError whose message contains
"database is locked" with `attempt < max_retries - 1` it sleeps the current
delay and doubles it, otherwise it re-raises. -/

/-- Outcome of one `cursor.execute` call under the retry wrapper. -/
inductive AttemptOutcome where
  | success
  | locked
  | otherError
deriving Repr, DecidableEq

/-- What execute_with_retry itself did: returned normally, re-raised the
lock error, or re-raised some other error. -/
inductive RetryResult where
  | ok
  | lockedRaised
  | otherRaised
deriving Repr, DecidableEq

/-- Observable trace of one execute_with_retry call: its result, how many
times it invoked `cursor.execute`, and the sequence of delays it slept, in
order. -/
structure RetryTrace where
  result : RetryResult
  attempts : Nat
  sleeps : List Nat
deriving Repr, DecidableEq

/-- The `max_retries = 3` constant of database.py:32. -/
def maxRetries : Nat := 3

/-- The body of the `for attempt in range(max_retries)` loop, structurally
recursive on the remaining iterations.  `attempt` is the current index,
`delay` the current retry_delay, `acc` the delays slept so far (reversed).
Falling off the end of the loop returns None in Python; it is unreachable
for maxRetries = 3 but modelled as a normal return. -/
def retryGo (outcomes : Nat → AttemptOutcome) :
    Nat → Nat → Nat → List Nat → RetryTrace
  | 0, attempt, _, acc => { result := RetryResult.ok, attempts := attempt, sleeps := acc.reverse }
  | remaining + 1, attempt, delay, acc =>
      match outcomes attempt with
      | AttemptOutcome.success =>
          { result := RetryResult.ok, attempts := attempt + 1, sleeps := acc.reverse }
      | AttemptOutcome.otherError =>
          { result := RetryResult.otherRaised, attempts := attempt + 1, sleeps := acc.reverse }
      | AttemptOutcome.locked =>
          if attempt < maxRetries - 1 then
            retryGo outcomes remaining (attempt + 1) (delay * 2) (delay :: acc)
          else
            { result := RetryResult.lockedRaised, attempts := attempt + 1, sleeps := acc.reverse }

/-- execute_with_retry (database.py:30-44) on a given sequence of execute
outcomes: 3 loop iterations, first attempt index 0, initial retry_delay 1,
nothing slept yet. -/
def execute_with_retry (outcomes : Nat → AttemptOutcome) : RetryTrace :=
  retryGo outcomes maxRetries 0 1 []

/-! ## Full library sync (tautulli_api.py:39-367)

The remote API is modelled per library section as a map from an optional
rating_key (none = the section's top level, some rk = children of rk) to
the full list of items; `get_library_media_info` pages over that list with
`length = 1000`, reporting `recordsTotal` as its length.  The while loops
of the source are given a fuel parameter; exhausted fuel acts as `break`,
and every theorem about concrete runs supplies ample fuel. -/

/-- One page of get_library_media_info: the slice [offset, offset+1000) of
the section's item list, with recordsTotal its full length. -/
def pageSlice (all : List Item) (offset : Nat) : List Item :=
  (all.drop offset).take 1000

/-- The dict literal built for each visited item by _sync_library_recursive
(tautulli_api.py:72-82): rating_key, title, year, media_type, thumb,
duration, file_size, added_at straight from the payload, plus the
propagated grandparent_rating_key.  No other keys, so store_media_item
reads art/banner/summary as absent. -/
def normalizeLibItem (it : Item) (gp : Option String) : Item :=
  { rating_key := it.rating_key, title := it.title, year := it.year,
    media_type := it.media_type, thumb := it.thumb,
    duration := it.duration, file_size := it.file_size,
    added_at := it.added_at, grandparent_rating_key := gp }

/-- The dict literal of _sync_music_library_recursive
(tautulli_api.py:142-153): as normalizeLibItem plus parent_rating_key. -/
def normalizeMusicItem (it : Item) (gp parent : Option String) : Item :=
  { rating_key := it.rating_key, title := it.title, year := it.year,
    media_type := it.media_type, thumb := it.thumb,
    duration := it.duration, file_size := it.file_size,
    added_at := it.added_at, grandparent_rating_key := gp,
    parent_rating_key := parent }

/-- The dict literal of the flat (non-hierarchical) branch of
sync_full_library (tautulli_api.py:335-344). -/
def normalizeFlatItem (it : Item) : Item :=
  { rating_key := it.rating_key, title := it.title, year := it.year,
    media_type := it.media_type, thumb := it.thumb,
    duration := it.duration, file_size := it.file_size,
    added_at := it.added_at }

/-- The `for item in items` body of _sync_library_recursive
(tautulli_api.py:67-100): store each item, then recurse into children of
shows (passing the show as grandparent) and of seasons (passing the
grandparent through).  `recur rk gp` is the recursive call at one less
fuel, offset 0. -/
def syncLibItems (now : Int)
    (recur : Option String → Option String → DbState → DbState × Nat)
    (gp : Option String) : List Item → DbState → DbState × Nat
  | [], st => (st, 0)
  | it :: rest, st =>
      let st1 := store_media_item now (normalizeLibItem it gp) st
      let stepped : DbState × Nat :=
        if it.media_type == some "show" then
          recur it.rating_key it.rating_key st1
        else if it.media_type == some "season" then
          recur it.rating_key gp st1
        else (st1, 0)
      let rest2 := syncLibItems now recur gp rest stepped.1
      (rest2.1, (1 + stepped.2) + rest2.2)

/-- _sync_library_recursive (tautulli_api.py:39-107): the paginated while
loop at one node of a TV library tree; `sectionTree rk` is the remote's
item list for that node.  Fuel bounds both the page loop and the recursion
depth. -/
def syncLibRec (sectionTree : Option String → List Item) (now : Int) :
    Nat → Option String → Option String → Nat → DbState → DbState × Nat
  | 0, _, _, _, st => (st, 0)
  | fuel + 1, rk, gp, offset, st =>
      let all := sectionTree rk
      let total := all.length
      let items := pageSlice all offset
      if items.isEmpty then (st, 0)
      else
        let step := syncLibItems now
          (fun rk2 gp2 st2 => syncLibRec sectionTree now fuel rk2 gp2 0 st2)
          gp items st
        let offset2 := offset + items.length
        if total ≤ offset2 then step
        else
          let cont := syncLibRec sectionTree now fuel rk gp offset2 step.1
          (cont.1, step.2 + cont.2)

/-- The `for item in items` body of _sync_music_library_recursive
(tautulli_api.py:137-173): artists recurse with themselves as grandparent
and no parent; albums recurse passing the grandparent through and
themselves as parent. -/
def syncMusicItems (now : Int)
    (recur : Option String → Option String → Option String → DbState → DbState × Nat)
    (gp parent : Option String) : List Item → DbState → DbState × Nat
  | [], st => (st, 0)
  | it :: rest, st =>
      let st1 := store_media_item now (normalizeMusicItem it gp parent) st
      let stepped : DbState × Nat :=
        if it.media_type == some "artist" then
          recur it.rating_key it.rating_key none st1
        else if it.media_type == some "album" then
          recur it.rating_key gp it.rating_key st1
        else (st1, 0)
      let rest2 := syncMusicItems now recur gp parent rest stepped.1
      (rest2.1, (1 + stepped.2) + rest2.2)

/-- _sync_music_library_recursive (tautulli_api.py:109-180). -/
def syncMusicRec (sectionTree : Option String → List Item) (now : Int) :
    Nat → Option String → Option String → Option String → Nat → DbState → DbState × Nat
  | 0, _, _, _, _, st => (st, 0)
  | fuel + 1, rk, gp, parent, offset, st =>
      let all := sectionTree rk
      let total := all.length
      let items := pageSlice all offset
      if items.isEmpty then (st, 0)
      else
        let step := syncMusicItems now
          (fun rk2 gp2 p2 st2 => syncMusicRec sectionTree now fuel rk2 gp2 p2 0 st2)
          gp parent items st
        let offset2 := offset + items.length
        if total ≤ offset2 then step
        else
          let cont := syncMusicRec sectionTree now fuel rk gp parent offset2 step.1
          (cont.1, step.2 + cont.2)

/-- The flat pagination branch of sync_full_library for non-show,
non-artist sections (tautulli_api.py:310-356). -/
def syncFlatLoop (sectionTree : Option String → List Item) (now : Int) :
    Nat → Nat → DbState → DbState × Nat
  | 0, _, st => (st, 0)
  | fuel + 1, offset, st =>
      let all := sectionTree none
      let total := all.length
      let items := pageSlice all offset
      if items.isEmpty then (st, 0)
      else
        let st2 := items.foldl (fun s it => store_media_item now (normalizeFlatItem it) s) st
        let offset2 := offset + items.length
        if total ≤ offset2 then (st2, items.length)
        else
          let cont := syncFlatLoop sectionTree now fuel offset2 st2
          (cont.1, items.length + cont.2)

/-- One entry of the get_libraries response (tautulli_api.py:276,292-295). -/
structure Library where
  section_id : Nat
  section_name : String
  section_type : String
deriving Repr, DecidableEq

/-- The remote side of a full library sync: the get_libraries response
(none models a failed request) and, per section_id, the
get_library_media_info item lists keyed by parent rating_key. -/
structure FullSyncRemote where
  libraries : Option (List Library)
  tree : Nat → Option String → List Item

/-- sync_full_library (tautulli_api.py:263-367).  When get_libraries fails
the function returns False without touching the store (lines 271-274).
When cleanup_stale is true, the valid rating_keys are collected by pure
remote reads (lines 280-285, no store effect) and then
`self.db.remove_stale_media_items(valid_keys)` is called
(tautulli_api.py:286) — but the Database class of src/src/database.py
defines no method of that name, so Python raises AttributeError there; the
except handler (lines 362-367) rolls the transaction back and returns
False.  Otherwise each library is synced inside one transaction — the
store writes swallow their own errors, so this path always commits and
returns True (fuel permitting). -/
def sync_full_library (r : FullSyncRemote) (now : Int) (fuel : Nat)
    (cleanup_stale : Bool) (st : DbState) : DbState × Bool :=
  match r.libraries with
  | none => (st, false)
  | some libs =>
      if cleanup_stale then
        (rollback_transaction st, false)
      else
        let st := begin_transaction st
        let final := libs.foldl (fun (acc : DbState × Nat) lib =>
          let sectionTree := r.tree lib.section_id
          if lib.section_type == "show" then
            let run := syncLibRec sectionTree now fuel none none 0 acc.1
            (run.1, acc.2 + run.2)
          else if lib.section_type == "artist" then
            let run := syncMusicRec sectionTree now fuel none none none 0 acc.1
            (run.1, acc.2 + run.2)
          else
            let run := syncFlatLoop sectionTree now fuel 0 acc.1
            (run.1, acc.2 + run.2)) (st, 0)
        (commit_transaction final.1, true)

/-! ## History sync (tautulli_api.py:369-438) -/

/-- Response of one get_history request: `nullResp` is `_make_request`
returning None (network/HTTP error), `noResponseField` a JSON body without
a "response" key; both hit the `if not result or "response" not in result`
break.  `okPage` carries the records and recordsTotal. -/
inductive HistResp where
  | nullResp
  | noResponseField
  | okPage (data : List Item) (recordsTotal : Nat)

/-- The `for item in history` body of sync_data (tautulli_api.py:416-419):
store_play_history then store_media_item per record; a raise from
store_play_history aborts the iteration and propagates (Bool = raised). -/
def storeItems (now : Int) : List Item → DbState → DbState × Bool
  | [], st => (st, false)
  | it :: rest, st =>
      let res := store_play_history now it st
      match res.2 with
      | some _ => (res.1, true)
      | none => storeItems now rest (store_media_item now it res.1)

/-- The paginated history while loop of sync_data (tautulli_api.py:393-427)
starting at a given offset.  Returns the state, whether an exception was
raised, and the trace of requests issued as (offset, records received)
pairs.  Fuel 0 acts as a break before the next request. -/
def historyLoop (hist : Nat → HistResp) (now : Int) :
    Nat → Nat → DbState → DbState × Bool × List (Nat × Nat)
  | 0, _, st => (st, false, [])
  | fuel + 1, offset, st =>
      match hist offset with
      | HistResp.nullResp => (st, false, [(offset, 0)])
      | HistResp.noResponseField => (st, false, [(offset, 0)])
      | HistResp.okPage data total =>
          if data.isEmpty then (st, false, [(offset, data.length)])
          else
            let res := storeItems now data st
            if res.2 then (res.1, true, [(offset, data.length)])
            else
              let offset2 := offset + data.length
              if total ≤ offset2 then (res.1, false, [(offset, data.length)])
              else
                let cont := historyLoop hist now fuel offset2 res.1
                (cont.1, cont.2.1, (offset, data.length) :: cont.2.2)

/-- The history half of sync_data (tautulli_api.py:380-438): read the
watermark on a fresh connection, choose the start_date filter (only for
incremental runs with a positive watermark), open the transaction, drain
the paginated history, and commit on success / roll back and return False
when an exception propagated. -/
def syncHistory (hist : Option Int → Nat → HistResp) (now : Int)
    (fuel : Nat) (full_sync : Bool) (st : DbState) : DbState × Bool :=
  let last := get_last_sync_time st
  let start_date := if !full_sync && (0 < last.1 : Bool) then some last.1 else none
  let st := begin_transaction st
  let run := historyLoop (hist start_date) now fuel 0 st
  if run.2.1 then (rollback_transaction run.1, false)
  else (commit_transaction run.1, true)

/-- sync_data (tautulli_api.py:369-438): when full_sync is requested, run
sync_full_library first (with its default cleanup_stale=True) and stop on
its failure; then sync play history. -/
def sync_data (r : FullSyncRemote) (hist : Option Int → Nat → HistResp)
    (now : Int) (fuel : Nat) (full_sync : Bool) (st : DbState) : DbState × Bool :=
  if full_sync then
    let fs := sync_full_library r now fuel true st
    if fs.2 then syncHistory hist now fuel full_sync fs.1
    else fs
  else syncHistory hist now fuel full_sync st

/-! ## Concrete fixtures used by the claim theorems and witnesses -/

/-- A well-formed play-history record as returned by get_history. -/
def goodItem : Item :=
  { rating_key := some "rkG", title := some "G", media_type := some "movie",
    user_id := some "u1", user := some "alice", date := some 500,
    duration := some 60 }

/-- A history record whose rating_key is absent: its play_history INSERT
binds NULL to a NOT NULL column and raises. -/
def badItem : Item :=
  { rating_key := none, title := some "B", media_type := some "movie",
    user_id := some "u1", date := some 501 }

/-- A media item dict lacking the NOT NULL title, so its INSERT fails. -/
def itBad : Item := { rating_key := some "x" }

/-- A committed database holding one already-synced media row. -/
def dbOpen : Db :=
  { emptyDb with media_items :=
      [{ rating_key := some "y", title := "Y", year := none,
         media_type := "movie", thumb := none, art := none, banner := none,
         summary := none, duration := none, file_size := none,
         added_at := none, updated_at := none }] }

/-- A store with an open transaction whose working copy already contains an
uncommitted media row. -/
def stOpen : DbState := { committed := emptyDb, conn := some dbOpen }

/-- True on a failed SQL statement. -/
def sqlFailed : Except SqlErr Db → Bool
  | Except.ok _ => false
  | Except.error _ => true

/-- An execute that hits lock contention on every attempt. -/
def allLocked : Nat → AttemptOutcome := fun _ => AttemptOutcome.locked

/-- An execute that hits lock contention twice, then succeeds. -/
def lockedTwice : Nat → AttemptOutcome := fun n =>
  if n < 2 then AttemptOutcome.locked else AttemptOutcome.success

/-- Prior committed store for the staleness-cleanup scenario: media_items
{A, B, C}, one play_history row referencing B, one user. -/
def dbC1 : Db :=
  { emptyDb with
    media_items :=
      [{ rating_key := some "A", title := "A", year := none, media_type := "movie",
         thumb := none, art := none, banner := none, summary := none,
         duration := none, file_size := none, added_at := some 10, updated_at := some 1 },
       { rating_key := some "B", title := "B", year := none, media_type := "movie",
         thumb := none, art := none, banner := none, summary := none,
         duration := none, file_size := none, added_at := some 11, updated_at := some 1 },
       { rating_key := some "C", title := "C", year := none, media_type := "movie",
         thumb := none, art := none, banner := none, summary := none,
         duration := none, file_size := none, added_at := some 12, updated_at := some 1 }],
    play_history :=
      [{ id := 1, rating_key := "B", user_id := "u1", watched_at := 100, duration := some 5 }],
    users :=
      [{ user_id := "u1", username := "alice", friendly_name := some "Alice", last_seen := some 100 }],
    next_play_id := 2 }

/-- The store before the full sync of the staleness scenario. -/
def stC1 : DbState := { committed := dbC1, conn := none }

/-- Remote for the staleness scenario: one movie library whose
authoritative top-level set is {A, C} (B was deleted upstream). -/
def rC1 : FullSyncRemote :=
  { libraries := some [{ section_id := 1, section_name := "Movies", section_type := "movie" }],
    tree := fun _ p =>
      match p with
      | none =>
          [{ rating_key := some "A", title := some "A", media_type := some "movie", added_at := some 10 },
           { rating_key := some "C", title := some "C", media_type := some "movie", added_at := some 12 }]
      | some _ => [] }

/-- An episode payload for the library-tree fixtures. -/
def mkEp (rk : String) (a : Int) : Item :=
  { rating_key := some rk, title := some rk, media_type := some "episode",
    added_at := some a }

/-- TV library tree for the hierarchy-timestamp scenario: show X holding
season P (payload added_at 999, children added at {100, 200, 300}) and
season Q (payload added_at 777, zero children). -/
def treeC3 : Option String → List Item
  | none =>
      [{ rating_key := some "X", title := some "ShowX",
         media_type := some "show", added_at := some 50 }]
  | some "X" =>
      [{ rating_key := some "P", title := some "Season1",
         media_type := some "season", added_at := some 999 },
       { rating_key := some "Q", title := some "Season2",
         media_type := some "season", added_at := some 777 }]
  | some "P" => [mkEp "e1" 100, mkEp "e2" 200, mkEp "e3" 300]
  | some _ => []

/-- A FullSyncRemote that is never consulted (incremental history runs). -/
def rDummy : FullSyncRemote := { libraries := none, tree := fun _ _ => [] }

/-- History remote for the rollback scenario: one page holding two good
records and then one with a missing rating_key, whose insert raises. -/
def histC2 : Option Int → Nat → HistResp := fun _ o =>
  if o == 0 then
    HistResp.okPage [goodItem, { goodItem with date := some 501 }, badItem] 3
  else HistResp.nullResp

/-- History remote that returns one real page and then fails mid-pagination
(recordsTotal 1000 promises more data, but the second request yields
None). -/
def histC8 : Option Int → Nat → HistResp := fun _ o =>
  if o == 0 then HistResp.okPage [goodItem] 1000 else HistResp.nullResp

/-- Simulated history endpoint with recordsTotal 2500 served in pages of at
most 1000 records. -/
def histC9 : Option Int → Nat → HistResp := fun _ o =>
  HistResp.okPage (List.replicate (min 1000 (2500 - o)) goodItem) 2500

/-- N successive store_media_item calls for the same item, as issued by N
identical re-syncs. -/
def storeMediaN (now : Int) (it : Item) : Nat → DbState → DbState
  | 0, st => st
  | n + 1, st => store_media_item now it (storeMediaN now it n st)

/-- History remote serving one page holding the given record (with
recordsTotal 1000 promising more data) and failing with None on every
later request, so the failure lands mid-pagination. -/
def pageThenNull (it : Item) : Option Int → Nat → HistResp := fun _ o =>
  if o == 0 then HistResp.okPage [it] 1000 else HistResp.nullResp

/-! ## Auxiliary lemmas -/

theorem filter_not_countP {α : Type} (p q : α → Bool) (hq : ∀ a, q a = !(p a))
    (l : List α) : (l.filter q).countP p = 0 := by
  induction l with
  | nil => rfl
  | cons a l ih =>
      by_cases h : p a
      · simp [List.filter_cons, hq, h, ih]
      · simp [List.filter_cons, hq, h, List.countP_cons, ih]

theorem filter_not_find? {α : Type} (p q : α → Bool) (hq : ∀ a, q a = !(p a))
    (l : List α) : (l.filter q).find? p = none := by
  induction l with
  | nil => rfl
  | cons a l ih =>
      by_cases h : p a
      · simp [List.filter_cons, hq, h, ih]
      · simp [List.filter_cons, List.find?, hq, h, ih]

theorem filter_not_filter {α : Type} (p q : α → Bool) (hq : ∀ a, q a = !(p a))
    (l : List α) : (l.filter q).filter p = [] := by
  induction l with
  | nil => rfl
  | cons a l ih =>
      by_cases h : p a
      · simp [List.filter_cons, hq, h, ih]
      · simp [List.filter_cons, hq, h, ih]

theorem any_eq_false_of_countP_eq_zero {α : Type} {p : α → Bool} {l : List α}
    (h : l.countP p = 0) : l.any p = false := by
  rw [List.any_eq_false]
  exact (List.countP_eq_zero).mp h

theorem countP_pos_of_any_eq_true {α : Type} {p : α → Bool} {l : List α}
    (h : l.any p = true) : 0 < l.countP p := by
  rw [List.countP_pos_iff]
  exact (List.any_eq_true).mp h

theorem ensureTransaction_committed (st : DbState) :
    (ensureTransaction st).committed = st.committed := by
  cases h : st.conn <;> simp [ensureTransaction, h, begin_transaction]

theorem ensureTransaction_conn (st : DbState) :
    (ensureTransaction st).conn = some (effDb st) := by
  cases h : st.conn <;> simp [ensureTransaction, h, begin_transaction, effDb]

theorem ensureTransaction_eq (st : DbState) :
    ensureTransaction st = { committed := st.committed, conn := some (effDb st) } := by
  cases st with
  | mk c conn => cases conn <;> simp [ensureTransaction, begin_transaction, effDb]

theorem effDb_mk_some (c db : Db) :
    effDb { committed := c, conn := some db } = db := rfl

theorem userUpsert_play (now : Int) (it : Item) (db : Db) :
    (userUpsert now it db).play_history = db.play_history := rfl

theorem userUpsert_next_id (now : Int) (it : Item) (db : Db) :
    (userUpsert now it db).next_play_id = db.next_play_id := rfl

/-- Characterisation of store_play_history on a record whose rating_key is
present (so the INSERT cannot fail): the user row is upserted; when the
dedup key already occurs, nothing else changes; otherwise the new play row
is appended and the history watermark advanced.  The committed database is
never touched. -/
theorem store_play_history_good_spec (now : Int) (it : Item) (st : DbState)
    (rk uid : String) (d : Int) (db : Db) (hrk : it.rating_key = some rk)
    (hu : it.user_id.getD "unknown" = uid) (hd : it.date.getD now = d)
    (hdb : db = userUpsert now it (effDb st)) :
    store_play_history now it st =
      (if db.play_history.any (playMatches (some rk) uid d) then
         ({ committed := st.committed, conn := some db }, none)
       else
         ({ committed := st.committed,
            conn := some { db with
              play_history := db.play_history ++
                [{ id := db.next_play_id, rating_key := rk, user_id := uid,
                   watched_at := d, duration := some (it.duration.getD 0) }],
              next_play_id := db.next_play_id + 1,
              sync_status := { db.sync_status with
                last_history_sync := now,
                total_items_synced := db.sync_status.total_items_synced + 1 } } },
          none)) := by
  subst hdb
  rw [store_play_history, ensureTransaction_eq]
  simp only [hrk, hu, hd]
  split
  · rfl
  · rw [update_sync_time_history]
    rfl

/-- Characterisation of store_media_item on a valid item (rating_key,
title and media_type all present): the conflicting rows are replaced by the
freshly built row on the open connection; the committed database is never
touched. -/
theorem store_media_item_good_spec (now : Int) (it : Item) (st : DbState)
    (rk : String) (t mt : String) (hrk : it.rating_key = some rk)
    (ht : it.title = some t) (hmt : it.media_type = some mt) :
    store_media_item now it st =
      { committed := st.committed,
        conn := some { effDb st with media_items :=
          (effDb st).media_items.filter (fun r => !(r.rating_key == some rk)) ++
            [{ rating_key := some rk, title := t, year := it.year,
               media_type := mt, thumb := it.thumb, art := it.art,
               banner := it.banner, summary := it.summary,
               duration := it.duration, file_size := it.file_size,
               added_at := it.added_at, updated_at := some now }] } } := by
  rw [store_media_item, ensureTransaction_eq]
  simp only [sqlInsertOrReplaceMedia, hrk, ht, hmt]

/-- Characterisation of store_media_item when the INSERT fails (NOT NULL
violation on title or media_type): the exception is caught and the state —
open transaction included — is returned untouched. -/
theorem store_media_item_fail_spec (now : Int) (it : Item) (st : DbState)
    (h : it.title = none ∨ it.media_type = none) :
    store_media_item now it st = ensureTransaction st := by
  have hfail : sqlInsertOrReplaceMedia now it (effDb st) =
      Except.error SqlErr.notNullViolation := by
    rw [sqlInsertOrReplaceMedia]
    rcases h with h | h
    · rw [h]
    · rw [h]
      cases h2 : it.title <;> rfl
  rw [store_media_item, ensureTransaction_eq]
  simp [hfail]

/-- Characterisation of store_play_history when the record's rating_key is
absent: the user row is still upserted on the connection, the dedup SELECT
matches nothing (SQL `=` against NULL), the INSERT violates NOT NULL, and
the handler rolls the whole transaction back and re-raises. -/
theorem store_play_history_fail_spec (now : Int) (it : Item) (st : DbState)
    (h : it.rating_key = none) :
    store_play_history now it st =
      ({ committed := st.committed, conn := none }, some SqlErr.notNullViolation) := by
  rw [store_play_history, ensureTransaction_eq]
  simp only [h, playMatches, List.any_eq_true]
  simp

theorem store_media_item_committed (now : Int) (it : Item) (st : DbState) :
    (store_media_item now it st).committed = st.committed := by
  rw [store_media_item, ensureTransaction_eq]
  cases h : sqlInsertOrReplaceMedia now it (effDb st) <;> simp [h]

theorem update_sync_time_history_committed (now : Int) (st : DbState) :
    (update_sync_time_history now st).committed = st.committed := by
  rw [update_sync_time_history, ensureTransaction_eq]

theorem store_play_history_committed (now : Int) (it : Item) (st : DbState) :
    (store_play_history now it st).1.committed = st.committed := by
  cases h : it.rating_key with
  | none => rw [store_play_history_fail_spec now it st h]
  | some rk =>
      rw [store_play_history_good_spec now it st rk (it.user_id.getD "unknown")
        (it.date.getD now) (userUpsert now it (effDb st)) h rfl rfl rfl]
      split <;> rfl

theorem storeItems_committed (now : Int) (l : List Item) (st : DbState) :
    (storeItems now l st).1.committed = st.committed := by
  induction l generalizing st with
  | nil => rfl
  | cons it rest ih =>
      rw [storeItems]
      cases h : (store_play_history now it st).2
      · simp only [h]
        rw [ih, store_media_item_committed, store_play_history_committed]
      · simp only [h]
        rw [store_play_history_committed]

theorem historyLoop_committed (hist : Nat → HistResp) (now : Int)
    (fuel offset : Nat) (st : DbState) :
    (historyLoop hist now fuel offset st).1.committed = st.committed := by
  induction fuel generalizing offset st with
  | zero => rfl
  | succ fuel ih =>
      rw [historyLoop]
      cases h : hist offset with
      | nullResp => rfl
      | noResponseField => rfl
      | okPage data total =>
          simp only [h]
          split
          · rfl
          · split
            · rw [storeItems_committed]
            · split
              · rw [storeItems_committed]
              · rw [ih, storeItems_committed]

/-- Helper for the commit-or-rollback tail of syncHistory: when the pair
returned is reported False, the rollback branch ran, so the committed
database is the run's input committed database. -/
theorem ite_commit_false_committed (run : DbState × Bool × List (Nat × Nat))
    (c : Db) (hc : run.1.committed = c)
    (h : (if run.2.1 then (rollback_transaction run.1, false)
          else (commit_transaction run.1, true)).2 = false) :
    (if run.2.1 then (rollback_transaction run.1, false)
     else (commit_transaction run.1, true)).1.committed = c := by
  by_cases hb : run.2.1
  · simp [hb, rollback_transaction, hc]
  · simp [hb] at h

/-- On the failure path, the history half of sync_data rolls back: the
committed database is exactly what it was before the run. -/
theorem syncHistory_false_committed (hist : Option Int → Nat → HistResp)
    (now : Int) (fuel : Nat) (full_sync : Bool) (st : DbState)
    (h : (syncHistory hist now fuel full_sync st).2 = false) :
    (syncHistory hist now fuel full_sync st).1.committed = st.committed := by
  rw [syncHistory] at h ⊢
  exact ite_commit_false_committed _ _ (historyLoop_committed _ now fuel 0 _) h

/-- sync_full_library invoked with cleanup_stale=True (as sync_data always
does) can never succeed: either get_libraries failed, or the call to the
undefined remove_stale_media_items raised AttributeError and the handler
rolled back.  Either way it returns False with the committed database
untouched. -/
theorem sync_full_library_cleanup_false (r : FullSyncRemote) (now : Int)
    (fuel : Nat) (st : DbState) :
    (sync_full_library r now fuel true st).2 = false ∧
    (sync_full_library r now fuel true st).1.committed = st.committed := by
  rw [sync_full_library]
  cases h : r.libraries <;> simp [rollback_transaction]

/-- The user upsert always leaves exactly one users row carrying the
record's user id, whatever the table held before. -/
theorem userUpsert_count (now : Int) (it : Item) (db : Db) (uid : String)
    (hu : it.user_id.getD "unknown" = uid) :
    countUsers (userUpsert now it db) uid = 1 := by
  simp only [countUsers, userUpsert, hu]
  rw [List.countP_append,
    filter_not_countP (fun u => u.user_id == uid)
      (fun u => !(u.user_id == uid)) (fun a => rfl) db.users]
  simp

/-- store_play_history on a record whose dedup key is not yet present:
returns without raising, the play row is inserted (count for the key goes
to one) and the user row is upserted. -/
theorem store_play_history_new (now : Int) (it : Item) (st : DbState)
    (rk uid : String) (d : Int) (hrk : it.rating_key = some rk)
    (hu : it.user_id.getD "unknown" = uid) (hd : it.date.getD now = d)
    (h0 : countPlay (effDb st) rk uid d = 0) :
    (store_play_history now it st).2 = none ∧
    countPlay (effDb (store_play_history now it st).1) rk uid d = 1 ∧
    countUsers (effDb (store_play_history now it st).1) uid = 1 := by
  have hany : ((userUpsert now it (effDb st)).play_history.any
      (playMatches (some rk) uid d)) = false := by
    rw [userUpsert_play]
    exact any_eq_false_of_countP_eq_zero h0
  rw [store_play_history_good_spec now it st rk uid d
    (userUpsert now it (effDb st)) hrk hu hd rfl]
  rw [hany]
  simp only [Bool.false_eq_true, if_false]
  refine ⟨by trivial, ?_, ?_⟩
  · unfold countPlay at h0 ⊢
    simp only [effDb_mk_some]
    rw [List.countP_append, userUpsert_play, h0]
    simp [playMatches]
  · simp only [effDb_mk_some]
    show countUsers { userUpsert now it (effDb st) with
      play_history := _, next_play_id := _, sync_status := _ } uid = 1
    exact userUpsert_count now it (effDb st) uid hu

/-- store_play_history on a record whose dedup key is already present:
returns without raising and leaves the play_history table untouched (the
user row is still upserted). -/
theorem store_play_history_dup (now : Int) (it : Item) (st : DbState)
    (rk uid : String) (d : Int) (hrk : it.rating_key = some rk)
    (hu : it.user_id.getD "unknown" = uid) (hd : it.date.getD now = d)
    (hpos : 0 < countPlay (effDb st) rk uid d) :
    (store_play_history now it st).2 = none ∧
    (effDb (store_play_history now it st).1).play_history = (effDb st).play_history ∧
    (effDb (store_play_history now it st).1).users = (userUpsert now it (effDb st)).users := by
  have hany : ((userUpsert now it (effDb st)).play_history.any
      (playMatches (some rk) uid d)) = true := by
    rw [userUpsert_play, List.any_eq_true]
    unfold countPlay at hpos
    exact List.countP_pos_iff.mp hpos
  rw [store_play_history_good_spec now it st rk uid d
    (userUpsert now it (effDb st)) hrk hu hd rfl]
  rw [hany]
  simp only [if_true]
  exact ⟨by trivial, userUpsert_play now it (effDb st), by trivial⟩

/-- A successful media INSERT OR REPLACE changes only the media_items
table. -/
theorem sqlInsertOrReplaceMedia_ok_fields (now : Int) (it : Item) (db db2 : Db)
    (h : sqlInsertOrReplaceMedia now it db = Except.ok db2) :
    db2.play_history = db.play_history ∧ db2.users = db.users ∧
    db2.sync_status = db.sync_status ∧ db2.next_play_id = db.next_play_id := by
  rw [sqlInsertOrReplaceMedia] at h
  cases h1 : it.title <;> cases h2 : it.media_type <;> rw [h1, h2] at h
  · simp at h
  · simp at h
  · simp at h
  · injection h with h3
    subst h3
    exact ⟨rfl, rfl, rfl, rfl⟩

/-- store_media_item never touches the play_history table (or the
autoincrement counter) on the open connection. -/
theorem store_media_item_eff_play (now : Int) (it : Item) (st : DbState) :
    (effDb (store_media_item now it st)).play_history = (effDb st).play_history ∧
    (effDb (store_media_item now it st)).next_play_id = (effDb st).next_play_id := by
  rw [store_media_item, ensureTransaction_eq]
  cases h : sqlInsertOrReplaceMedia now it (effDb st) with
  | ok db2 =>
      simp only [h, effDb_mk_some]
      obtain ⟨hp, -, -, hn⟩ := sqlInsertOrReplaceMedia_ok_fields now it _ db2 h
      exact ⟨hp, hn⟩
  | error e => simp [h, effDb_mk_some]

/-- store_media_item always returns with the transaction open; the result
is its own working copy over the unchanged committed database. -/
theorem store_media_item_mk (now : Int) (it : Item) (st : DbState) :
    store_media_item now it st =
      { committed := st.committed,
        conn := some (effDb (store_media_item now it st)) } := by
  rw [store_media_item, ensureTransaction_eq]
  cases h : sqlInsertOrReplaceMedia now it (effDb st) <;> simp [h, effDb_mk_some]

/-- After storing a valid media item, the table holds exactly one row with
its rating_key: the freshly built row. -/
theorem store_media_item_rows (now : Int) (it : Item) (st : DbState)
    (rk t mt : String) (hrk : it.rating_key = some rk)
    (ht : it.title = some t) (hmt : it.media_type = some mt) :
    mediaRows (effDb (store_media_item now it st)) rk =
      [{ rating_key := some rk, title := t, year := it.year, media_type := mt,
         thumb := it.thumb, art := it.art, banner := it.banner,
         summary := it.summary, duration := it.duration,
         file_size := it.file_size, added_at := it.added_at,
         updated_at := some now }] := by
  rw [store_media_item_good_spec now it st rk t mt hrk ht hmt]
  simp only [mediaRows, effDb_mk_some]
  rw [List.filter_append,
    filter_not_filter (fun r => r.rating_key == some rk)
      (fun r => !(r.rating_key == some rk)) (fun a => rfl) (effDb st).media_items]
  simp

/-- After storing a valid media item, the first row found under its
rating_key carries exactly the payload's added_at. -/
theorem mediaAddedAt_after_store (now : Int) (it : Item) (st : DbState)
    (rk t mt : String) (hrk : it.rating_key = some rk)
    (ht : it.title = some t) (hmt : it.media_type = some mt) :
    mediaAddedAt (store_media_item now it st) rk = some it.added_at := by
  rw [store_media_item_good_spec now it st rk t mt hrk ht hmt]
  simp only [mediaAddedAt, effDb_mk_some]
  rw [List.find?_append,
    filter_not_find? (fun r => r.rating_key == some rk)
      (fun r => !(r.rating_key == some rk)) (fun a => rfl) (effDb st).media_items]
  simp [List.find?]

/-! ## Claim theorems -/

/-- C1: the spec's staleness-cleanup property is right and the code is
wrong.  `sync_full_library(cleanup_stale=True)` calls
`self.db.remove_stale_media_items(valid_keys)` (tautulli_api.py:286), but
the Database class defines no such method, so the call raises
AttributeError, the except handler rolls back and the function returns
False: with prior store {A,B,C} and authoritative remote set {A,C}, the
stale identifier B is NOT removed (the whole store is untouched and no
sync happens), contradicting the claim and the function's own
docstring. -/
theorem c1_full_sync_with_cleanup_fails_and_keeps_stale_item :
    sync_full_library rC1 9 10 true stC1 = (stC1, false) ∧
    (mediaRows (sync_full_library rC1 9 10 true stC1).1.committed "B").length = 1 ∧
    (sync_full_library rC1 9 10 true stC1).1.committed.play_history = dbC1.play_history ∧
    (sync_full_library rC1 9 10 true stC1).1.committed.users = dbC1.users := by
  refine ⟨by decide, by decide, by decide, by decide⟩

/-- C3 counterexample: running the recursive library sync on a tree where
season P's own payload says added_at = 999 while its episodes were added at
{100, 200, 300} stores P with added_at = 999, not the children's minimum
100; likewise childless season Q is stored with its payload value 777, not
null.  The orchestrator never derives added_at from children. -/
theorem c3_counterexample_added_at_not_derived_from_children :
    mediaAddedAt (syncLibRec treeC3 7 20 none none 0 emptySt).1 "P" = some (some 999) ∧
    ¬ mediaAddedAt (syncLibRec treeC3 7 20 none none 0 emptySt).1 "P" = some (some 100) ∧
    mediaAddedAt (syncLibRec treeC3 7 20 none none 0 emptySt).1 "Q" = some (some 777) ∧
    ¬ mediaAddedAt (syncLibRec treeC3 7 20 none none 0 emptySt).1 "Q" = some none := by
  refine ⟨by decide, by decide, by decide, by decide⟩

/-- C6 counterexample: with a transaction open (holding an uncommitted
row), store_media_item on an item whose NOT NULL title is missing hits a
failing INSERT — yet it neither rolls the transaction back nor propagates
anything: the state is returned unchanged, connection still open.  The
failure is silently recovered, contradicting the claim that every write
failure inside an open transaction rolls back and surfaces. -/
theorem c6_counterexample_media_error_swallowed :
    sqlFailed (sqlInsertOrReplaceMedia 5 itBad dbOpen) = true ∧
    store_media_item 5 itBad stOpen = stOpen ∧
    ¬ stOpen.conn = none := by
  refine ⟨by decide, by decide, by decide⟩

/-- C7 counterexample: when every attempt raises "database is locked",
execute_with_retry issues exactly 3 execute calls and sleeps [1, 2] before
re-raising — it exhausts after 2 retries, never sleeping the third delay 4
that the claim's "(1, 2, 4)" sequence and "exhausting 3 retries"
describe. -/
theorem c7_counterexample_retry_exhaustion :
    execute_with_retry allLocked =
      { result := RetryResult.lockedRaised, attempts := 3, sleeps := [1, 2] } ∧
    ¬ (execute_with_retry allLocked).sleeps = [1, 2, 4] ∧
    ¬ (execute_with_retry allLocked).attempts = 4 := by
  refine ⟨by decide, by decide, by decide⟩

/-- C7 amended: execute_with_retry makes at most 3 execute attempts in
total, sleeping at most the delays 1 then 2 between them; a write that
raises "locked" twice then succeeds completes normally after exactly 2
retries (3 attempts) with elapsed delays 1, 2; a write that raises
"locked" on every attempt re-raises the error after those same 2 retries
(3 attempts, delays 1, 2). -/
theorem c7_retry_policy :
    (∀ f : Nat → AttemptOutcome, (execute_with_retry f).attempts ≤ 3) ∧
    execute_with_retry lockedTwice =
      { result := RetryResult.ok, attempts := 3, sleeps := [1, 2] } ∧
    execute_with_retry allLocked =
      { result := RetryResult.lockedRaised, attempts := 3, sleeps := [1, 2] } := by
  refine ⟨?_, by decide, by decide⟩
  intro f
  cases h0 : f 0 <;> cases h1 : f 1 <;> cases h2 : f 2 <;>
    simp [execute_with_retry, retryGo, maxRetries, h0, h1, h2]

/-- C9: against a remote history endpoint with recordsTotal = 2500 serving
pages of at most 1000 records, the history pagination loop of sync_data
issues exactly 3 requests, at offsets 0, 1000, 2000 receiving 1000, 1000
and 500 records — each offset the sum of all previously received counts,
so none duplicated or skipped — raises nothing, and terminates of its own
accord: the minimal fuel 3 already yields the identical trace, so further
fuel is never consumed. -/
theorem c9_pagination_trace :
    (historyLoop (histC9 none) 5 10 0 emptySt).2 =
      (false, [(0, 1000), (1000, 1000), (2000, 500)]) ∧
    (historyLoop (histC9 none) 5 3 0 emptySt).2 =
      (false, [(0, 1000), (1000, 1000), (2000, 500)]) := by
  constructor
  · set_option maxRecDepth 1000000 in decide
  · set_option maxRecDepth 1000000 in decide

/-- C8 counterexample: when the first get_history page returns one record
with recordsTotal = 1000 (promising more) and the second request fails
(returns null) mid-pagination, sync_data does NOT abort: it breaks out of
the loop, commits the open transaction — the record from the first page is
visible in committed play_history — and reports success, contradicting the
claim that a null mid-pagination response aborts and rolls back. -/
theorem c8_counterexample_null_page_commits :
    (sync_data rDummy histC8 5 10 false emptySt).2 = true ∧
    countPlay (sync_data rDummy histC8 5 10 false emptySt).1.committed "rkG" "u1" 500 = 1 ∧
    (sync_data rDummy histC8 5 10 false emptySt).1.conn = none := by
  refine ⟨by decide, by decide, by decide⟩

/-- A commit of an open connection publishes its working copy. -/
theorem commit_transaction_mk_some (c db : Db) :
    commit_transaction { committed := c, conn := some db } =
      { committed := db, conn := none } := rfl

/-- C2: for every history sync run (over any remote behaviour, any fuel,
full or incremental), if the run reports failure — which is exactly what
happens when an exception is raised after K records were processed inside
the open transaction — then the committed play_history table and the
committed last_history_sync watermark are unchanged from before the run:
the whole transaction, the K stored records and the watermark update
included, was rolled back. -/
theorem c2_history_sync_rollback_atomic
    (r : FullSyncRemote) (hist : Option Int → Nat → HistResp) (now : Int)
    (fuel : Nat) (full_sync : Bool) (st : DbState)
    (h : (sync_data r hist now fuel full_sync st).2 = false) :
    (sync_data r hist now fuel full_sync st).1.committed.play_history =
      st.committed.play_history ∧
    (sync_data r hist now fuel full_sync st).1.committed.sync_status.last_history_sync =
      st.committed.sync_status.last_history_sync := by
  have hc : (sync_data r hist now fuel full_sync st).1.committed = st.committed := by
    cases full_sync with
    | false =>
        simp only [sync_data, Bool.false_eq_true, if_false] at h ⊢
        exact syncHistory_false_committed hist now fuel false st h
    | true =>
        simp only [sync_data, if_true] at h ⊢
        have hfs := sync_full_library_cleanup_false r now fuel st
        rw [hfs.1] at h ⊢
        simp only [Bool.false_eq_true, if_false] at h ⊢
        exact hfs.2
  rw [hc]
  exact ⟨rfl, rfl⟩

/-- Witness for C2: a run whose single page holds two good records followed
by one lacking its rating_key, so the third insert raises after K = 2
records were processed; the run reports failure and the store and watermark
are untouched. -/
theorem c2_history_sync_rollback_atomic_witness :
    (sync_data rDummy histC2 5 10 false emptySt).2 = false ∧
    ((sync_data rDummy histC2 5 10 false emptySt).1.committed.play_history =
        emptySt.committed.play_history ∧
     (sync_data rDummy histC2 5 10 false emptySt).1.committed.sync_status.last_history_sync =
        emptySt.committed.sync_status.last_history_sync) :=
  ⟨by decide, c2_history_sync_rollback_atomic rDummy histC2 5 10 false emptySt (by decide)⟩

/-- C3 amended: for every node visited during a full library sync — a
season or album included — the stored added_at is copied verbatim from the
node's own remote payload (null exactly when the payload lacks it); it is
never derived from the children's minimum.  This holds on both the TV and
the music recursive paths. -/
theorem c3_added_at_copied_from_payload (now : Int) (it : Item) (st : DbState)
    (gp parent : Option String) (rk t mt : String)
    (hrk : it.rating_key = some rk) (ht : it.title = some t)
    (hmt : it.media_type = some mt) :
    mediaAddedAt (store_media_item now (normalizeLibItem it gp) st) rk =
      some it.added_at ∧
    mediaAddedAt (store_media_item now (normalizeMusicItem it gp parent) st) rk =
      some it.added_at :=
  ⟨mediaAddedAt_after_store now (normalizeLibItem it gp) st rk t mt hrk ht hmt,
   mediaAddedAt_after_store now (normalizeMusicItem it gp parent) st rk t mt hrk ht hmt⟩

/-- Witness for the amended C3: the season payload with added_at 999 is
stored with added_at 999 on both paths. -/
theorem c3_added_at_copied_from_payload_witness :
    (({ rating_key := some "P", title := some "Season1",
        media_type := some "season", added_at := some 999 } : Item).rating_key = some "P" ∧
     ({ rating_key := some "P", title := some "Season1",
        media_type := some "season", added_at := some 999 } : Item).title = some "Season1" ∧
     ({ rating_key := some "P", title := some "Season1",
        media_type := some "season", added_at := some 999 } : Item).media_type = some "season") ∧
    (mediaAddedAt (store_media_item 7 (normalizeLibItem
        { rating_key := some "P", title := some "Season1",
          media_type := some "season", added_at := some 999 } (some "X")) emptySt) "P" =
      some (some 999) ∧
     mediaAddedAt (store_media_item 7 (normalizeMusicItem
        { rating_key := some "P", title := some "Season1",
          media_type := some "season", added_at := some 999 } (some "X") none) emptySt) "P" =
      some (some 999)) :=
  ⟨⟨rfl, rfl, rfl⟩,
   c3_added_at_copied_from_payload 7
     { rating_key := some "P", title := some "Season1",
       media_type := some "season", added_at := some 999 }
     emptySt (some "X") none "P" "Season1" "season" rfl rfl rfl⟩

/-- C4: ingesting the identical play-history record twice (same
rating_key, user_id and watched-at, at any two wall-clock times) into a
store not yet holding that dedup key raises nothing and leaves exactly one
play_history row carrying the (rating_key, user_id, watched_at) tuple: the
second ingestion is deduplicated. -/
theorem c4_history_dedup (now1 now2 : Int) (it : Item) (st : DbState)
    (rk uid : String) (d : Int) (hrk : it.rating_key = some rk)
    (huid : it.user_id = some uid) (hd : it.date = some d)
    (h0 : countPlay (effDb st) rk uid d = 0) :
    (store_play_history now1 it st).2 = none ∧
    (store_play_history now2 it (store_play_history now1 it st).1).2 = none ∧
    countPlay (effDb (store_play_history now2 it (store_play_history now1 it st).1).1)
      rk uid d = 1 := by
  have hu1 : it.user_id.getD "unknown" = uid := by rw [huid]; rfl
  have hd1 : it.date.getD now1 = d := by rw [hd]; rfl
  have hd2 : it.date.getD now2 = d := by rw [hd]; rfl
  obtain ⟨e1, c1, -⟩ := store_play_history_new now1 it st rk uid d hrk hu1 hd1 h0
  obtain ⟨e2, p2, -⟩ := store_play_history_dup now2 it
    (store_play_history now1 it st).1 rk uid d hrk hu1 hd2
    (by rw [c1]; exact Nat.one_pos)
  refine ⟨e1, e2, ?_⟩
  unfold countPlay at c1 ⊢
  rw [p2]
  exact c1

/-- Witness for C4: re-ingesting the concrete record twice from the empty
store yields exactly one row under its key. -/
theorem c4_history_dedup_witness :
    (goodItem.rating_key = some "rkG" ∧ goodItem.user_id = some "u1" ∧
     goodItem.date = some 500 ∧ countPlay (effDb emptySt) "rkG" "u1" 500 = 0) ∧
    ((store_play_history 5 goodItem emptySt).2 = none ∧
     (store_play_history 6 goodItem (store_play_history 5 goodItem emptySt).1).2 = none ∧
     countPlay (effDb (store_play_history 6 goodItem
       (store_play_history 5 goodItem emptySt).1).1) "rkG" "u1" 500 = 1) :=
  ⟨⟨rfl, rfl, rfl, by decide⟩,
   c4_history_dedup 5 6 goodItem emptySt "rkG" "u1" 500 rfl rfl rfl (by decide)⟩

/-- C5: ingesting the identical valid MediaItem record N+1 times (N ≥ 0,
so every count ≥ 1) leaves exactly one media_items row under its
rating_key, holding the latest field values (updated_at stamped with the
final write's time); the duplicate key never raises — INSERT OR REPLACE
overwrites. -/
theorem c5_media_upsert_idempotent (now : Int) (it : Item) (st : DbState)
    (N : Nat) (rk t mt : String) (hrk : it.rating_key = some rk)
    (ht : it.title = some t) (hmt : it.media_type = some mt) :
    mediaRows (effDb (storeMediaN now it (N + 1) st)) rk =
      [{ rating_key := some rk, title := t, year := it.year, media_type := mt,
         thumb := it.thumb, art := it.art, banner := it.banner,
         summary := it.summary, duration := it.duration,
         file_size := it.file_size, added_at := it.added_at,
         updated_at := some now }] := by
  rw [storeMediaN]
  exact store_media_item_rows now it _ rk t mt hrk ht hmt

/-- Witness for C5: three identical ingestions of the concrete record leave
exactly one row with its latest values. -/
theorem c5_media_upsert_idempotent_witness :
    (goodItem.rating_key = some "rkG" ∧ goodItem.title = some "G" ∧
     goodItem.media_type = some "movie") ∧
    mediaRows (effDb (storeMediaN 5 goodItem (2 + 1) emptySt)) "rkG" =
      [{ rating_key := some "rkG", title := "G", year := goodItem.year,
         media_type := "movie", thumb := goodItem.thumb, art := goodItem.art,
         banner := goodItem.banner, summary := goodItem.summary,
         duration := goodItem.duration, file_size := goodItem.file_size,
         added_at := goodItem.added_at, updated_at := some 5 }] :=
  ⟨⟨rfl, rfl, rfl⟩,
   c5_media_upsert_idempotent 5 goodItem emptySt 2 "rkG" "G" "movie" rfl rfl rfl⟩

/-- C6 amended: the two write paths have asymmetric failure semantics.  A
failing INSERT inside store_play_history rolls back the whole open
transaction and propagates the exception to the caller; a failing INSERT
inside store_media_item is caught and only logged — the open transaction
(prior writes included) is left exactly as it was and no error reaches the
caller, i.e. that write failure is silently recovered. -/
theorem c6_error_semantics_split (now1 now2 : Int) (st1 st2 : DbState)
    (it1 it2 : Item) (hmedia : it1.title = none ∨ it1.media_type = none)
    (hplay : it2.rating_key = none) :
    store_media_item now1 it1 st1 = ensureTransaction st1 ∧
    store_play_history now2 it2 st2 =
      ({ committed := st2.committed, conn := none }, some SqlErr.notNullViolation) :=
  ⟨store_media_item_fail_spec now1 it1 st1 hmedia,
   store_play_history_fail_spec now2 it2 st2 hplay⟩

/-- Witness for the amended C6: the concrete failing media item is
swallowed with the transaction left open, while the failing history record
rolls back and raises. -/
theorem c6_error_semantics_split_witness :
    ((itBad.title = none ∨ itBad.media_type = none) ∧ badItem.rating_key = none) ∧
    (store_media_item 5 itBad stOpen = ensureTransaction stOpen ∧
     store_play_history 6 badItem stOpen =
       ({ committed := stOpen.committed, conn := none }, some SqlErr.notNullViolation)) :=
  ⟨⟨Or.inl rfl, rfl⟩,
   c6_error_semantics_split 5 6 stOpen stOpen itBad badItem (Or.inl rfl) rfl⟩

/-- C8 amended: a remote call returning null (or a body without a
"response" field) in the middle of history pagination is treated as the
normal end of pagination: the sync run breaks out of the loop, commits the
open transaction — the records ingested from the earlier pages are visible
in committed play_history — and reports success. -/
theorem c8_null_page_ends_pagination (now : Int) (it : Item) (st : DbState)
    (rk uid : String) (d : Int) (hrk : it.rating_key = some rk)
    (hu : it.user_id.getD "unknown" = uid) (hd : it.date.getD now = d)
    (h0 : countPlay st.committed rk uid d = 0) :
    (sync_data rDummy (pageThenNull it) now 2 false st).2 = true ∧
    countPlay (sync_data rDummy (pageThenNull it) now 2 false st).1.committed
      rk uid d = 1 := by
  obtain ⟨e1, c1, -⟩ :=
    store_play_history_new now it (begin_transaction st) rk uid d hrk hu hd h0
  have hSI : storeItems now [it] (begin_transaction st) =
      (store_media_item now it (store_play_history now it (begin_transaction st)).1,
       false) := by
    simp only [storeItems, e1]
  have hHL : ∀ sd, historyLoop (pageThenNull it sd) now 2 0 (begin_transaction st) =
      (store_media_item now it (store_play_history now it (begin_transaction st)).1,
       false, [(0, 1), (1, 0)]) := by
    intro sd
    simp [historyLoop, pageThenNull, hSI]
  have hrun : sync_data rDummy (pageThenNull it) now 2 false st =
      (commit_transaction
        (store_media_item now it (store_play_history now it (begin_transaction st)).1),
       true) := by
    simp only [sync_data, Bool.false_eq_true, if_false, syncHistory]
    rw [hHL]
    simp
  rw [hrun]
  refine ⟨rfl, ?_⟩
  rw [store_media_item_mk now it (store_play_history now it (begin_transaction st)).1,
    commit_transaction_mk_some]
  have hp := (store_media_item_eff_play now it
    (store_play_history now it (begin_transaction st)).1).1
  unfold countPlay at c1 ⊢
  rw [hp]
  exact c1

/-- Witness for the amended C8: the concrete run over one real page and a
null second page commits the page-one record and reports success. -/
theorem c8_null_page_ends_pagination_witness :
    (goodItem.rating_key = some "rkG" ∧ goodItem.user_id.getD "unknown" = "u1" ∧
     goodItem.date.getD 5 = 500 ∧ countPlay emptySt.committed "rkG" "u1" 500 = 0) ∧
    ((sync_data rDummy (pageThenNull goodItem) 5 2 false emptySt).2 = true ∧
     countPlay (sync_data rDummy (pageThenNull goodItem) 5 2 false emptySt).1.committed
       "rkG" "u1" 500 = 1) :=
  ⟨⟨rfl, rfl, rfl, by decide⟩,
   c8_null_page_ends_pagination 5 goodItem emptySt "rkG" "u1" 500 rfl rfl rfl (by decide)⟩

/-- C10: two play-history records arriving without a user_id field (same
rating_key and watched-at) both substitute the literal string "unknown":
the users upsert writes the single "unknown" row, the dedup lookup runs
under the ("unknown", rating_key, watched_at) key, and the second record
deduplicates against the first — one play_history row and one users row
result. -/
theorem c10_missing_user_id_unknown (now1 now2 : Int) (it1 it2 : Item)
    (st : DbState) (rk : String) (d : Int)
    (h1u : it1.user_id = none) (h2u : it2.user_id = none)
    (h1rk : it1.rating_key = some rk) (h2rk : it2.rating_key = some rk)
    (h1d : it1.date = some d) (h2d : it2.date = some d)
    (h0 : countPlay (effDb st) rk "unknown" d = 0) :
    (store_play_history now1 it1 st).2 = none ∧
    (store_play_history now2 it2 (store_play_history now1 it1 st).1).2 = none ∧
    countPlay (effDb (store_play_history now2 it2
      (store_play_history now1 it1 st).1).1) rk "unknown" d = 1 ∧
    countUsers (effDb (store_play_history now2 it2
      (store_play_history now1 it1 st).1).1) "unknown" = 1 := by
  have hu1 : it1.user_id.getD "unknown" = "unknown" := by rw [h1u]; rfl
  have hu2 : it2.user_id.getD "unknown" = "unknown" := by rw [h2u]; rfl
  have hd1 : it1.date.getD now1 = d := by rw [h1d]; rfl
  have hd2 : it2.date.getD now2 = d := by rw [h2d]; rfl
  obtain ⟨e1, c1, -⟩ := store_play_history_new now1 it1 st rk "unknown" d h1rk hu1 hd1 h0
  obtain ⟨e2, p2, u2⟩ := store_play_history_dup now2 it2
    (store_play_history now1 it1 st).1 rk "unknown" d h2rk hu2 hd2
    (by rw [c1]; exact Nat.one_pos)
  refine ⟨e1, e2, ?_, ?_⟩
  · unfold countPlay at c1 ⊢
    rw [p2]
    exact c1
  · have hcnt := userUpsert_count now2 it2
      (effDb (store_play_history now1 it1 st).1) "unknown" hu2
    unfold countUsers at hcnt ⊢
    rw [u2]
    exact hcnt

/-- Witness for C10: two concrete user_id-less records with the same
rating_key and watched-at collapse to one play row and one "unknown" users
row. -/
theorem c10_missing_user_id_unknown_witness :
    (({ rating_key := some "rkN", date := some 600 } : Item).user_id = none ∧
     ({ rating_key := some "rkN", date := some 600 } : Item).rating_key = some "rkN" ∧
     ({ rating_key := some "rkN", date := some 600 } : Item).date = some 600 ∧
     countPlay (effDb emptySt) "rkN" "unknown" 600 = 0) ∧
    ((store_play_history 5 { rating_key := some "rkN", date := some 600 } emptySt).2 = none ∧
     (store_play_history 6 { rating_key := some "rkN", date := some 600 }
       (store_play_history 5 { rating_key := some "rkN", date := some 600 } emptySt).1).2 = none ∧
     countPlay (effDb (store_play_history 6 { rating_key := some "rkN", date := some 600 }
       (store_play_history 5 { rating_key := some "rkN", date := some 600 } emptySt).1).1)
       "rkN" "unknown" 600 = 1 ∧
     countUsers (effDb (store_play_history 6 { rating_key := some "rkN", date := some 600 }
       (store_play_history 5 { rating_key := some "rkN", date := some 600 } emptySt).1).1)
       "unknown" = 1) :=
  ⟨⟨rfl, rfl, rfl, by decide⟩,
   c10_missing_user_id_unknown 5 6
     { rating_key := some "rkN", date := some 600 }
     { rating_key := some "rkN", date := some 600 }
     emptySt "rkN" 600 rfl rfl rfl rfl rfl rfl (by decide)⟩

end PlexNews
